import Mathlib

/-!
# docrip — verification of the volume-processing core

A shallow embedding, in Lean 4, of the core of `docrip` (a tool that
discovers local block-device volumes, mounts them read-only, archives and
chunks their contents, and transfers the result), together with theorems
settling a fixed list of claims about it.

Conventions of the embedding:

* Pure Python functions become Lean functions over `Nat` / `String` /
  `List` / `Option`.
* Calls into the outside world (running subprocesses via `util.run`,
  `lsblk` lookups in `layers.pk_disk_of`, the `blkid`-based encryption
  heuristic, the filesystem) are modelled as explicit parameters
  ("oracles") supplying the observed results, or as small explicit state /
  event-trace models, so that every embedded function is total and
  executable.
* Python truthiness on strings/containers (`if only:`, `x or y`) is
  modelled explicitly where the source relies on it.
-/

namespace Docrip

/-- Split a character list at a separator character. -/
def splitOnChar (sep : Char) : List Char → List (List Char)
  | [] => [[]]
  | c :: rest =>
    if c = sep then [] :: splitOnChar sep rest
    else
      match splitOnChar sep rest with
      | [] => [[c]]
      | g :: gs => (c :: g) :: gs

/-- `pathlib.Path(p).name`: the last path component (empty components
produced by slashes are dropped, mirroring pathlib's normalisation). -/
def baseName (p : String) : String :=
  String.mk (((splitOnChar '/' p.data).filter (fun c => c ≠ [])).getLastD [])

/-- Python truthiness of an optional string: `None` and `""` are falsy. -/
def truthyS : Option String → Bool
  | none => false
  | some s => s ≠ ""

/-- Python `x or dflt` where `x` is an optional string (`None`/`""` falsy). -/
def pyOrS (x : Option String) (dflt : String) : Option String :=
  match x with
  | some r => if r = "" then some dflt else some r
  | none => some dflt

/-- `types.Config` — the resolved run configuration (`src/docrip/types.py`).
Numeric fields that are sizes/counts are nonnegative in every configuration
the loader produces, so they are embedded as `Nat`. -/
structure Config where
  server_rsync_remote : String
  server_ssh_key : String
  server_port : Nat
  compressor : String
  compression_level : Nat
  chunk_size_mb : Nat
  stream_direct : Bool
  spool_dir : String
  preserve_xattrs : Bool
  include_fstypes : List String
  skip_fstypes : List String
  skip_if_encrypted : Bool
  allow_lvm : Bool
  allow_raid : Bool
  min_partition_size_gb : Nat
  avoid_devices : List String
  max_file_size_mb : Nat
  workers : Nat
  rsync_bwlimit_kbps : Nat
  log_level : String
  date_fmt : String
  token_source : String
  pattern : String
  integrity_algo : String
  run_summary_dir : String
  per_volume_json : Bool
  deriving Repr, DecidableEq

/-- `types.Volume` — one discovered storage unit (`src/docrip/types.py`).
`kname` is embedded as `String` (`""` when lsblk reported neither KNAME nor
NAME); the remaining optional fields keep their optionality. -/
structure Volume where
  path : String
  kname : String
  fstype : String
  size_bytes : Nat
  type : String
  uuid : Option String
  encrypted : Bool
  diskno : Nat
  partno : Nat
  model : Option String
  skip_reason : Option String := none
  deriving Repr, DecidableEq

/-- `types.VolumeResult` — one outcome record per processed volume.
The float `duration_sec` is not relevant to any claim and is omitted. -/
structure VolumeResult where
  device : String
  fstype : String
  size_bytes : Nat
  name : String
  mountpoint : String
  status : String
  error : Option String := none
  deriving Repr, DecidableEq

/-! ## Volume filtering (`discover.collect_volumes`, filter section) -/

/-- `min_bytes = cfg.min_partition_size_gb * (1024**3)` in `collect_volumes`. -/
def min_bytes (cfg : Config) : Nat := cfg.min_partition_size_gb * 1024 ^ 3

/-- The skip-reason annotation loop of `collect_volumes`
(`src/docrip/discover.py` lines 126–139): an `if/elif` chain whose first
matching branch fixes the reason; no branch matching leaves the reason
unset (eligible). -/
def skipReasonOf (cfg : Config) (exclude : List String) (v : Volume) :
    Option String :=
  if v.path ∈ exclude ∨ baseName v.path ∈ cfg.avoid_devices then
    some "boot/avoid"
  else if v.fstype ∈ cfg.skip_fstypes then
    some ("skip_fstype:" ++ v.fstype)
  else if cfg.include_fstypes ≠ [] ∧ v.fstype ∉ cfg.include_fstypes then
    some ("unsupported_fstype:" ++ v.fstype)
  else if cfg.skip_if_encrypted ∧ v.encrypted then
    some "encrypted"
  else if v.size_bytes < min_bytes cfg then
    some ("too_small<" ++ toString cfg.min_partition_size_gb ++ "G")
  else
    none

/-- `v.skip_reason = reason` at the end of the annotation loop. -/
def annotateVolume (cfg : Config) (exclude : List String) (v : Volume) :
    Volume :=
  { v with skip_reason := skipReasonOf cfg exclude v }

/-- The `--only` pass of `orchestrator.run_plan` (lines 139–142):
`if only: for v in vols: if v.path not in only: v.skip_reason =
v.skip_reason or "not_in_only"`.  `only` is `None` or a set of device
paths; the pass is skipped entirely when the set is falsy (absent or
empty). -/
def applyOnly (only : Option (List String)) (v : Volume) : Volume :=
  match only with
  | none => v
  | some o =>
    if o = [] then v
    else if v.path ∈ o then v
    else { v with skip_reason := pyOrS v.skip_reason "not_in_only" }

/-! ### Claim-side rendering of the filter rules (for the refinement claim)

`claimRules` is written from the specification's words, not from the
source: an ordered rule list, first match wins, the match's reason is
recorded, no match means eligible. -/

/-- The five filter rules in the order the specification states them:
(a) boot/live exclusion or avoid-list match, (b) deny-list filesystem
match, (c) allow-list present and filesystem not in it, (d) encrypted
while skip-on-encryption enabled, (e) size below the configured minimum. -/
def claimRules (cfg : Config) (exclude : List String) :
    List ((Volume → Bool) × (Volume → String)) :=
  [ (fun v => decide (v.path ∈ exclude ∨ baseName v.path ∈ cfg.avoid_devices),
     fun _ => "boot/avoid"),
    (fun v => decide (v.fstype ∈ cfg.skip_fstypes),
     fun v => "skip_fstype:" ++ v.fstype),
    (fun v => decide (cfg.include_fstypes ≠ [] ∧ v.fstype ∉ cfg.include_fstypes),
     fun v => "unsupported_fstype:" ++ v.fstype),
    (fun v => decide (cfg.skip_if_encrypted ∧ v.encrypted),
     fun _ => "encrypted"),
    (fun v => decide (v.size_bytes < min_bytes cfg),
     fun _ => "too_small<" ++ toString cfg.min_partition_size_gb ++ "G") ]

/-- First-match-wins evaluation of an ordered rule list (the evaluation
order the specification describes). -/
def firstMatch (rules : List ((Volume → Bool) × (Volume → String)))
    (v : Volume) : Option String :=
  match rules with
  | [] => none
  | (p, r) :: rest => if p v then some (r v) else firstMatch rest v

/-! ## Device enumeration (`discover.collect_volumes`, tree walk) -/

/-- One node of the `lsblk -J` block-device tree.  Every field that
`collect_volumes` reads through `node.get(...)` is optional. -/
inductive BNode where
  | mk (name kname path ty fstype : Option String) (size : Option Nat)
      (uuid model : Option String) (children : List BNode)

def BNode.name : BNode → Option String
  | .mk n _ _ _ _ _ _ _ _ => n

def BNode.kname : BNode → Option String
  | .mk _ k _ _ _ _ _ _ _ => k

def BNode.path : BNode → Option String
  | .mk _ _ p _ _ _ _ _ _ => p

def BNode.ty : BNode → Option String
  | .mk _ _ _ t _ _ _ _ _ => t

def BNode.fstype : BNode → Option String
  | .mk _ _ _ _ f _ _ _ _ => f

def BNode.size : BNode → Option Nat
  | .mk _ _ _ _ _ s _ _ _ => s

def BNode.uuid : BNode → Option String
  | .mk _ _ _ _ _ _ u _ _ => u

def BNode.model : BNode → Option String
  | .mk _ _ _ _ _ _ _ m _ => m

def BNode.children : BNode → List BNode
  | .mk _ _ _ _ _ _ _ _ c => c

/-- The external inputs `collect_volumes` consumes through subprocess
calls: `pk_disk_of` (a chain of `lsblk` lookups in `layers.py`) and
`is_encrypted` (the `blkid`-based heuristic), each a function of the
device path (and, for encryption, the filesystem type) supplied by the
environment. -/
structure DiscoverEnv where
  pkDisk : String → Option String
  encOracle : String → String → Bool

/-- `re.search(r"(\d+)$", kname).group(1)` as a number: the maximal
run of digits at the end of the string, `0` when there is none. -/
def trailingNum (s : String) : Nat :=
  let ds := (s.data.reverse.takeWhile Char.isDigit).reverse
  ds.foldl (fun a c => a * 10 + (c.toNat - 48)) 0

/-- Ascending insertion into a sorted string list. -/
def insertSorted (x : String) : List String → List String
  | [] => [x]
  | y :: ys => if x ≤ y then x :: y :: ys else y :: insertSorted x ys

/-- `sorted(...)` over strings (insertion sort; device paths are distinct,
so this agrees with Python's stable sort). -/
def sortStrings : List String → List String
  | [] => []
  | x :: xs => insertSorted x (sortStrings xs)

/-- `discover._build_disk_index`: the top-level `disk` nodes' `/dev/<name>`
paths, sorted; a device maps to its zero-based position in that list. -/
def diskIndexList (tops : List BNode) : List String :=
  sortStrings ((tops.filter (fun d => d.ty = some "disk")).map
      (fun d => "/dev/" ++ d.name.getD ""))

/-- `disks_index.get(parent_disk, 0)`: position in the sorted disk list,
`0` when the parent disk is unknown (including `parent_disk is None`). -/
def diskIndexGet (tops : List BNode) (dev : Option String) : Nat :=
  match dev with
  | none => 0
  | some d => if d ∈ diskIndexList tops then (diskIndexList tops).indexOf d else 0

/-- The node types `collect_volumes` considers directly consumable:
`consider = {"part", "lvm", "raid0", "raid1", "raid10", "crypt", "rom"}`. -/
def considerTypes : List String :=
  ["part", "lvm", "raid0", "raid1", "raid10", "crypt", "rom"]

/-- The candidacy test of `walk`:
`t in consider or (t == "disk" and fstype)` — with `fstype` already
lowercased and `""` for a missing value, so the second disjunct needs a
non-empty filesystem type. -/
def nodeConsumable (ty : Option String) (fstypeLower : String) : Bool :=
  match ty with
  | none => false
  | some t => t ∈ considerTypes ∨ (t = "disk" ∧ fstypeLower ≠ "")

/-- Python `str.lower()` (the strings involved are ASCII). -/
def pyLower (s : String) : String := String.mk (s.data.map Char.toLower)

/-- Building the `Volume` appended by `walk` for a consumable node
(`src/docrip/discover.py` lines 109–117). -/
def mkVolume (cfg : Config) (env : DiscoverEnv) (tops : List BNode)
    (n : BNode) : Volume :=
  let path := n.path.getD ""
  let kname := (if truthyS n.kname then n.kname else n.name).getD ""
  let fstype := pyLower (n.fstype.getD "")
  let enc := if cfg.skip_if_encrypted then env.encOracle path fstype else false
  let parent_disk :=
    match env.pkDisk path with
    | some d => some d
    | none => if n.ty = some "disk" then some ("/dev/" ++ kname) else none
  { path := path
    kname := kname
    fstype := fstype
    size_bytes := n.size.getD 0
    type := n.ty.getD ""
    uuid := n.uuid
    encrypted := enc
    diskno := diskIndexGet tops parent_disk
    partno := trailingNum kname
    model := n.model }

mutual

/-- The recursive `walk` of `collect_volumes`: a node with a falsy `path`
is dropped together with its whole subtree (`if not path: return`);
otherwise the node itself contributes a `Volume` when consumable and the
children are walked in order. -/
def walkNode (cfg : Config) (env : DiscoverEnv) (tops : List BNode) :
    BNode → List Volume
  | .mk name kname path ty fstype size uuid model children =>
    if truthyS path then
      (if nodeConsumable ty (pyLower (fstype.getD "")) then
        [mkVolume cfg env tops (.mk name kname path ty fstype size uuid model children)]
      else []) ++
      walkForest cfg env tops children
    else []

/-- `for ch in node.get("children") or []: walk(ch)`, in list order. -/
def walkForest (cfg : Config) (env : DiscoverEnv) (tops : List BNode) :
    List BNode → List Volume
  | [] => []
  | n :: rest => walkNode cfg env tops n ++ walkForest cfg env tops rest

end

/-- `collect_volumes` (`src/docrip/discover.py`): walk the tree, then
annotate every collected volume with its skip reason.  The boot-device
exclusion set (`find_boot_devices`, another subprocess probe) is an
explicit parameter. -/
def collect_volumes (cfg : Config) (env : DiscoverEnv)
    (exclude : List String) (tops : List BNode) : List Volume :=
  (walkForest cfg env tops tops).map (annotateVolume cfg exclude)

/-! ## Per-volume naming (`orchestrator.process_one`, lines 52–54) -/

/-- One left-to-right pass of `str.format` over the naming pattern's four
placeholders, on character lists. -/
def formatChars (date token disk part : List Char) : List Char → List Char
  | '\x7b' :: 'd' :: 'a' :: 't' :: 'e' :: '\x7d' :: rest =>
    date ++ formatChars date token disk part rest
  | '\x7b' :: 't' :: 'o' :: 'k' :: 'e' :: 'n' :: '\x7d' :: rest =>
    token ++ formatChars date token disk part rest
  | '\x7b' :: 'd' :: 'i' :: 's' :: 'k' :: '\x7d' :: rest =>
    disk ++ formatChars date token disk part rest
  | '\x7b' :: 'p' :: 'a' :: 'r' :: 't' :: '\x7d' :: rest =>
    part ++ formatChars date token disk part rest
  | c :: rest => c :: formatChars date token disk part rest
  | [] => []

/-- `cfg.pattern.format(date=..., token=..., disk=..., part=...)` for
patterns built from the four placeholder fields (the only field names the
pattern may reference); each placeholder is replaced by its value. -/
def formatPattern (pattern date token : String) (disk part : Nat) : String :=
  String.mk
    (formatChars date.data token.data (toString disk).data (toString part).data
      pattern.data)

/-- The derived per-volume name in `process_one`. -/
def volName (cfg : Config) (date_str token : String) (v : Volume) : String :=
  formatPattern cfg.pattern date_str token v.diskno v.partno

/-- `work_root = cfg.spool_dir / name`. -/
def workRoot (cfg : Config) (name : String) : String :=
  cfg.spool_dir ++ "/" ++ name

/-- `mp = Path("/mnt") / "docrip" / name`. -/
def mountPointOf (name : String) : String :=
  "/mnt/docrip/" ++ name

/-! ## Read-only mounting (`mounter.mount_ro` / `mounter.umount`) -/

/-- External observations `mount_ro` depends on: the exit code of the
mount command it runs, and whether `apfs-fuse` is installed. -/
structure MountEnv where
  rcOf : List String → Nat
  hasApfsFuse : Bool

/-- The on-disk side effects of a `mount_ro` call. -/
structure MountState where
  dirCreated : Bool
  mounted : Bool
  deriving Repr, DecidableEq

/-- The filesystem types with an entry in `mount_ro`'s dispatch table. -/
def supportedFstypes : List String :=
  ["ext2", "ext3", "ext4", "xfs", "btrfs", "ntfs", "vfat", "exfat",
   "hfs", "hfsplus", "apfs", "zfs"]

/-- `mounter.mount_ro` (`src/docrip/mounter.py` lines 16–83).  The first
statement is `mp.mkdir(parents=True, exist_ok=True)` — the mountpoint
directory is created before the filesystem type is examined.  Each branch
mirrors one recipe of the dispatch chain; the returned `Bool` is the
function's return value. -/
def mount_ro (env : MountEnv) (v : Volume) (mp : String) :
    Bool × MountState :=
  let st : MountState := { dirCreated := true, mounted := false }
  let runMount : List String → Bool × MountState := fun cmd =>
    if env.rcOf cmd ≠ 0 then (false, st) else (true, { st with mounted := true })
  let fs := v.fstype
  if fs = "ext2" ∨ fs = "ext3" ∨ fs = "ext4" then
    runMount ["mount", "-t", "ext4", "-o", "ro,noload,nodev,nosuid,noexec",
      v.path, mp]
  else if fs = "xfs" then
    runMount ["mount", "-t", "xfs", "-o", "ro,norecovery,nodev,nosuid,noexec",
      v.path, mp]
  else if fs = "btrfs" then
    runMount ["mount", "-t", "btrfs", "-o", "ro,nodev,nosuid,noexec", v.path, mp]
  else if fs = "ntfs" then
    runMount ["ntfs-3g", "-o", "ro,nodev,nosuid,noexec", v.path, mp]
  else if fs = "vfat" then
    runMount ["mount", "-t", "vfat", "-o",
      "ro,uid=0,gid=0,umask=022,nodev,nosuid,noexec", v.path, mp]
  else if fs = "exfat" then
    runMount ["mount", "-t", "exfat", "-o", "ro,nodev,nosuid,noexec", v.path, mp]
  else if fs = "hfs" then
    runMount ["mount", "-t", "hfs", "-o", "ro,nodev,nosuid,noexec", v.path, mp]
  else if fs = "hfsplus" then
    runMount ["mount", "-t", "hfsplus", "-o", "ro,force,nodev,nosuid,noexec",
      v.path, mp]
  else if fs = "apfs" then
    if env.hasApfsFuse then runMount ["apfs-fuse", "--readonly", v.path, mp]
    else (false, st)
  else if fs = "zfs" then
    (false, st)
  else
    (false, st)

/-- External observations `umount` depends on: whether the mountpoint
exists, the exit code of the `umount -f --lazy` command, and whether the
`mp.rmdir()` call succeeds (its errors are swallowed by a bare
`except: pass`). -/
structure UmountEnv where
  mpExists : Bool
  umountRc : Nat
  rmdirOk : Bool

/-- The observable outcome of a `umount` call. -/
structure UmountState where
  umountAttempted : Bool
  dirRemoved : Bool
  deriving Repr, DecidableEq

/-- `mounter.umount` (`src/docrip/mounter.py` lines 86–92), in `Except` so
that "never raises" is expressible: `if mp.exists()` guards both the
forced lazy unmount and the directory removal, and the removal's errors
are swallowed, so no branch produces an `Except.error`. -/
def umount (env : UmountEnv) : Except String UmountState :=
  if env.mpExists then
    Except.ok { umountAttempted := true, dirRemoved := env.rmdirOk }
  else
    Except.ok { umountAttempted := false, dirRemoved := false }

/-! ## Per-volume task (`orchestrator.process_one`) -/

/-- The calls a volume task makes into the stage functions, in order. -/
inductive Ev where
  | mountCall (dev mp : String)
  | chunkCall (mp out : String)
  | rsyncCall (dir : String)
  | umountCall (mp : String)
  deriving Repr, DecidableEq

/-- Outcome of each stage as the task observes it: `Except.error` models
a Python exception raised inside the stage, `Except.ok b` its boolean
return value. -/
structure TaskEnv where
  mountRes : Except String Bool
  chunkRes : Except String Bool
  rsyncRes : Except String Bool

def Ev.isUmount : Ev → Bool
  | .umountCall _ => true
  | _ => false

/-- `orchestrator.process_one` (`src/docrip/orchestrator.py` lines
49–109): a `try` body running mount → chunk → rsync with early returns, an
`except Exception` arm producing an `"exception"` result, and a `finally`
arm calling `umount(mp)` — so every path of the source appends exactly one
`umountCall` as its last event.  Returns the `VolumeResult` together with
the event trace. -/
def process_one (env : TaskEnv) (cfg : Config) (v : Volume)
    (token date_str : String) : VolumeResult × List Ev :=
  let name := volName cfg date_str token v
  let work_root := workRoot cfg name
  let mp := mountPointOf name
  let mkRes : String → Option String → VolumeResult := fun status err =>
    { device := v.path, fstype := v.fstype, size_bytes := v.size_bytes,
      name := name, mountpoint := mp, status := status, error := err }
  match env.mountRes with
  | .error e => (mkRes "exception" (some e), [.mountCall v.path mp, .umountCall mp])
  | .ok false => (mkRes "mount_failed" none, [.mountCall v.path mp, .umountCall mp])
  | .ok true =>
    match env.chunkRes with
    | .error e =>
      (mkRes "exception" (some e),
       [.mountCall v.path mp, .chunkCall mp work_root, .umountCall mp])
    | .ok false =>
      (mkRes "chunk_failed" none,
       [.mountCall v.path mp, .chunkCall mp work_root, .umountCall mp])
    | .ok true =>
      match env.rsyncRes with
      | .error e =>
        (mkRes "exception" (some e),
         [.mountCall v.path mp, .chunkCall mp work_root, .rsyncCall work_root,
          .umountCall mp])
      | .ok ok2 =>
        (mkRes (if ok2 then "ok" else "rsync_failed") none,
         [.mountCall v.path mp, .chunkCall mp work_root, .rsyncCall work_root,
          .umountCall mp])

/-! ## Atomic JSON persistence (`util.write_json`) -/

/-- A flat view of the filesystem: path → file content (`none` = absent). -/
abbrev FS : Type := String → Option String

/-- `path.with_suffix(path.suffix + ".tmp")`: pathlib removes the final
suffix and appends it back followed by `.tmp`, which for every destination
the program writes (`.manifest.json`, `run-<ts>.json`, `<name>.json`)
amounts to appending `.tmp` to the path. -/
def tmpPath (p : String) : String := p ++ ".tmp"

/-- `util.write_json` runs `tmp.write_text(...)` then `tmp.replace(path)`.
These are the filesystem states a concurrent reader can pass through:
the initial state, the temporary sibling holding any prefix of the
serialized content while `write_text` is in progress, and the state after
the atomic rename (destination holds the full content, temporary gone). -/
def writeJsonStates (fs : FS) (p content : String) : List FS :=
  fs ::
    ((List.range (content.length + 1)).map
      (fun k q => if q = tmpPath p then some (content.take k) else fs q)) ++
    [fun q => if q = tmpPath p then none
              else if q = p then some content else fs q]

/-- The state after `write_json` returns. -/
def writeJsonFinal (fs : FS) (p content : String) : FS :=
  fun q => if q = tmpPath p then none
           else if q = p then some content else fs q

/-! ## Archive pipeline (`chunker.make_chunks`) -/

/-- A chunked-mode manifest as `make_chunks` builds it:
`{"ext": ..., "chunk_size_mb": ..., "whole_sha256": ...}`. -/
structure Manifest where
  ext : String
  chunk_size_mb : Nat
  whole_sha256 : Option String
  deriving Repr, DecidableEq

/-- External observations of one `make_chunks` run: the exit code of each
stage of the shell pipeline it launches, whether the
`tee >(sha256sum ... > .whole.sha256)` process substitution got the
whole-stream checksum onto disk, and that checksum's content. -/
structure ChunkEnv where
  findRc : Nat
  tarRc : Nat
  compRc : Nat
  teeRc : Nat
  splitRc : Nat
  teeShaWritten : Bool
  wholeShaContent : String

/-- What `bash -lc "a | b | ... | z"` reports as the command's exit
status: the status of the **last** stage — `pipefail` is not set anywhere
in the program, so earlier stages' failures are invisible to the caller. -/
def pipelineObservedRc (stageRcs : List Nat) : Nat := stageRcs.getLastD 0

/-- The artifacts a `make_chunks` run leaves in its output directory. -/
structure ChunkFS where
  partsWritten : Bool
  manifestWritten : Bool
  manifest : Option Manifest
  deriving Repr, DecidableEq

/-- `chunker.make_chunks` (`src/docrip/chunker.py` lines 19–67).  In
chunked mode the build pipeline is
`find | tar | <compressor> | tee >(sha256sum …) | split`; in single-file
mode it is `find | tar | <compressor> > archive`.  The function tests the
`rc` that `util.run` hands back for that one `bash -lc` invocation
(`pipelineObservedRc` of the stages) and returns `False` with nothing
written when it is non-zero; otherwise the per-chunk checksum loop and
chunk listing run (their exit codes are ignored) and, when not a dry run
(and — in chunked mode — `.whole.sha256` exists), the manifest is written
through `write_json`. -/
def make_chunks (cfg : Config) (env : ChunkEnv) (dry : Bool) :
    Bool × ChunkFS :=
  let ext := if cfg.compressor = "zstd" then "zst" else "gz"
  let manifest0 : Manifest :=
    { ext := ext, chunk_size_mb := cfg.chunk_size_mb, whole_sha256 := none }
  if cfg.chunk_size_mb > 0 then
    let rc := pipelineObservedRc
      [env.findRc, env.tarRc, env.compRc, env.teeRc, env.splitRc]
    if rc ≠ 0 then
      (false, { partsWritten := false, manifestWritten := false, manifest := none })
    else if ¬ dry ∧ env.teeShaWritten then
      (true, { partsWritten := true, manifestWritten := true,
               manifest := some { manifest0 with
                                  whole_sha256 := some env.wholeShaContent } })
    else
      (true, { partsWritten := true, manifestWritten := false, manifest := none })
  else
    let rc := pipelineObservedRc [env.findRc, env.tarRc, env.compRc]
    if rc ≠ 0 then
      (false, { partsWritten := false, manifestWritten := false, manifest := none })
    else if ¬ dry then
      (true, { partsWritten := true, manifestWritten := true,
               manifest := some { manifest0 with
                                  whole_sha256 := some env.wholeShaContent } })
    else
      (true, { partsWritten := true, manifestWritten := false, manifest := none })

/-- The JSON artifacts `run_plan` persists after the pool drains
(`src/docrip/orchestrator.py` lines 169–184), every one through
`write_json`: the run summary and, when `per_volume_json` is set, one file
per `VolumeResult` keyed by the volume's derived name.  Serialized
contents are abstracted to a serializer parameter. -/
def runPlanJsonWrites (cfg : Config) (ts : String)
    (results : List VolumeResult) (serialize : VolumeResult → String)
    (summaryContent : String) : List (String × String) :=
  (cfg.run_summary_dir ++ "/run-" ++ ts ++ ".json", summaryContent) ::
    (if cfg.per_volume_json then
      results.map (fun r => (cfg.run_summary_dir ++ "/" ++ r.name ++ ".json",
                             serialize r))
    else [])

/-! ## Token derivation (`util.base36_digest5`, `orchestrator.derive_token`)

`base36_digest5` calls `hashlib.sha256`; SHA-256 (FIPS 180-4) is embedded
below over `Nat` with explicit reduction modulo `2^32`. -/

/-- Truncate to a 32-bit word. -/
def w32 (n : Nat) : Nat := n % 2 ^ 32

/-- 32-bit right rotation. -/
def rotr32 (x n : Nat) : Nat := w32 ((x >>> n) ||| (x <<< (32 - n)))

/-- 32-bit bitwise complement. -/
def compl32 (x : Nat) : Nat := 2 ^ 32 - 1 - w32 x

def sha256K : List Nat :=
  [1116352408, 1899447441, 3049323471, 3921009573, 961987163, 1508970993,
   2453635748, 2870763221, 3624381080, 310598401, 607225278, 1426881987,
   1925078388, 2162078206, 2614888103, 3248222580, 3835390401, 4022224774,
   264347078, 604807628, 770255983, 1249150122, 1555081692, 1996064986,
   2554220882, 2821834349, 2952996808, 3210313671, 3336571891, 3584528711,
   113926993, 338241895, 666307205, 773529912, 1294757372, 1396182291,
   1695183700, 1986661051, 2177026350, 2456956037, 2730485921, 2820302411,
   3259730800, 3345764771, 3516065817, 3600352804, 4094571909, 275423344,
   430227734, 506948616, 659060556, 883997877, 958139571, 1322822218,
   1537002063, 1747873779, 1955562222, 2024104815, 2227730452, 2361852424,
   2428436474, 2756734187, 3204031479, 3329325298]

def sha256H0 : List Nat :=
  [1779033703, 3144134277, 1013904242, 2773480762, 1359893119, 2600822924,
   528734635, 1541459225]

/-- Big-endian byte decomposition, `k` bytes. -/
def bytesBE (k n : Nat) : List Nat :=
  (List.range k).reverse.map (fun i => (n >>> (8 * i)) % 256)

/-- UTF-8 encoding of one character, as byte values. -/
def utf8Bytes (c : Char) : List Nat :=
  let n := c.toNat
  if n < 128 then [n]
  else if n < 2048 then [192 + n / 64, 128 + n % 64]
  else if n < 65536 then [224 + n / 4096, 128 + (n / 64) % 64, 128 + n % 64]
  else [240 + n / 262144, 128 + (n / 4096) % 64, 128 + (n / 64) % 64,
        128 + n % 64]

/-- `s.encode("utf-8")` as a byte list. -/
def strBytes (s : String) : List Nat := (s.data.map utf8Bytes).flatten

/-- SHA-256 padding: `0x80`, zeros to 56 mod 64, 64-bit big-endian bit
length. -/
def sha256pad (m : List Nat) : List Nat :=
  m ++ [128] ++ List.replicate ((55 + 64 - m.length % 64) % 64) 0 ++
    bytesBE 8 ((8 * m.length) % 2 ^ 64)

/-- Split into 64-byte blocks. -/
def chunks64 : List Nat → List (List Nat)
  | [] => []
  | a :: rest => (a :: rest).take 64 :: chunks64 ((a :: rest).drop 64)
  termination_by l => l.length
  decreasing_by simp [List.length_drop]; omega

/-- Big-endian 32-bit words of a block. -/
def toWords : List Nat → List Nat
  | a :: b :: c :: d :: rest =>
    (a * 2 ^ 24 + b * 2 ^ 16 + c * 2 ^ 8 + d) :: toWords rest
  | _ => []

def ssig0 (x : Nat) : Nat := rotr32 x 7 ^^^ rotr32 x 18 ^^^ (x >>> 3)

def ssig1 (x : Nat) : Nat := rotr32 x 17 ^^^ rotr32 x 19 ^^^ (x >>> 10)

def bsig0 (x : Nat) : Nat := rotr32 x 2 ^^^ rotr32 x 13 ^^^ rotr32 x 22

def bsig1 (x : Nat) : Nat := rotr32 x 6 ^^^ rotr32 x 11 ^^^ rotr32 x 25

def chFn (x y z : Nat) : Nat := (x &&& y) ^^^ (compl32 x &&& z)

def majFn (x y z : Nat) : Nat := (x &&& y) ^^^ (x &&& z) ^^^ (y &&& z)

/-- Message schedule: the 16 block words extended to 64. -/
def sha256Schedule (w16 : List Nat) : Array Nat :=
  (List.range 48).foldl
    (fun w j =>
      let i := j + 16
      w.push (w32 (ssig1 (w.getD (i - 2) 0) + w.getD (i - 7) 0 +
        ssig0 (w.getD (i - 15) 0) + w.getD (i - 16) 0)))
    w16.toArray

/-- One compression round over the working variables `[a,b,c,d,e,f,g,h]`. -/
def sha256Round (w : Array Nat) (st : List Nat) (i : Nat) : List Nat :=
  match st with
  | [a, b, c, d, e, f, g, h] =>
    let t1 := w32 (h + bsig1 e + chFn e f g + sha256K.getD i 0 + w.getD i 0)
    let t2 := w32 (bsig0 a + majFn a b c)
    [w32 (t1 + t2), a, b, c, w32 (d + t1), e, f, g]
  | st => st

/-- Compress one 64-byte block into the running hash state. -/
def sha256Block (h : List Nat) (block : List Nat) : List Nat :=
  let w := sha256Schedule (toWords block)
  let fin := (List.range 64).foldl (sha256Round w) h
  List.zipWith (fun x y => w32 (x + y)) h fin

/-- SHA-256 digest of a byte list, as 32 bytes. -/
def sha256Bytes (msg : List Nat) : List Nat :=
  (((chunks64 (sha256pad msg)).foldl sha256Block sha256H0).map
    (bytesBE 4)).flatten

/-- `int.from_bytes(bs, "big")`. -/
def intFromBytesBE (bs : List Nat) : Nat :=
  bs.foldl (fun acc b => acc * 256 + b) 0

def base36Alphabet : List Char :=
  "0123456789abcdefghijklmnopqrstuvwxyz".data

/-- The digit loop of `base36_digest5`: `k` times append `chars[n % 36]`
then divide `n` by 36. -/
def base36Digits : Nat → Nat → List Char
  | 0, _ => []
  | k + 1, n => base36Alphabet.getD (n % 36) '0' :: base36Digits k (n / 36)

/-- `util.base36_digest5` (`src/docrip/util.py` lines 113–122): base-36
digits of the first 8 digest bytes read big-endian, six produced, five
kept. -/
def base36_digest5 (s : String) : String :=
  let n := intFromBytesBE ((sha256Bytes (strBytes s)).take 8)
  String.mk ((base36Digits 6 n).take 5)

/-- `orchestrator.derive_token` (`src/docrip/orchestrator.py` lines
33–34): `base36_digest5(f"{date_str}:{host_identifier(...)}")`.  The host
identity returned by `util.host_identifier` is an explicit argument. -/
def derive_token (hostid : String) (date_str : String) : String :=
  base36_digest5 (date_str ++ ":" ++ hostid)

/-! ## Claim-side predicate for node candidacy (for the refinement claim)

Written from the specification's words, not from the source: a node
"represents an actually-consumable filesystem" when it is a partition, a
RAID/LVM/crypt volume, or a whole disk directly carrying a filesystem. -/

/-- The claim's candidacy predicate over a block-device tree node.  "A
RAID volume" is read as any lsblk `raid*` type (checked on the first four
characters). -/
def claimConsumable (n : BNode) : Bool :=
  match n.ty with
  | none => false
  | some t =>
    t = "part" || decide (t.data.take 4 = "raid".data) || t = "lvm" ||
      t = "crypt" || (t = "disk" && truthyS n.fstype)

/-! ### Nodes the walk visits

`walk` examines every root, and the children of a node only when that
node's own path is truthy (`if not path: return` drops the subtree).
`reachedNodes`/`reachedForest` collect the visited nodes in walk order, so
that candidacy can be characterised node by node across the whole tree. -/

mutual

/-- The nodes of one subtree that `walk` examines: the node itself and,
when its path is truthy, the visited nodes of its children. -/
def reachedNodes : BNode → List BNode
  | .mk name kname path ty fstype size uuid model children =>
    .mk name kname path ty fstype size uuid model children ::
      (if truthyS path then reachedForest children else [])

/-- The visited nodes of a forest, in order. -/
def reachedForest : List BNode → List BNode
  | [] => []
  | n :: rest => reachedNodes n ++ reachedForest rest

end

/-- The candidacy test `walk` applies to a visited node: truthy path and
a consumable type. -/
def nodeCandidate (n : BNode) : Bool :=
  truthyS n.path && nodeConsumable n.ty (pyLower (n.fstype.getD ""))

/-! ## Concrete fixtures used by witnesses and counterexamples -/

/-- A representative resolved configuration: the loader's documented
defaults, with a zero size floor so small concrete volumes stay
eligible. -/
def cfgD : Config :=
  { server_rsync_remote := "user@host:/archive"
    server_ssh_key := "/root/.ssh/key"
    server_port := 22
    compressor := "zstd"
    compression_level := 3
    chunk_size_mb := 4096
    stream_direct := false
    spool_dir := "/var/tmp/docrip"
    preserve_xattrs := true
    include_fstypes := []
    skip_fstypes := []
    skip_if_encrypted := true
    allow_lvm := true
    allow_raid := true
    min_partition_size_gb := 0
    avoid_devices := []
    max_file_size_mb := 100
    workers := 0
    rsync_bwlimit_kbps := 0
    log_level := "INFO"
    date_fmt := "%Y%m%d"
    token_source := "machine-id"
    pattern := "{date}_{token}_d{disk}_p{part}"
    integrity_algo := "sha256"
    run_summary_dir := "/var/log/docrip"
    per_volume_json := true }

/-- A discovery environment whose parent-disk resolution finds nothing
(`pk_disk_of` can return `None`: `lsblk` erroring, a parent-link loop, or
the eight-hop limit) and whose encryption heuristic reports `False`. -/
def envNone : DiscoverEnv :=
  { pkDisk := fun _ => none, encOracle := fun _ _ => false }

/-- An optical drive: lsblk type `rom`, no filesystem. -/
def romNode : BNode :=
  .mk (some "sr0") (some "sr0") (some "/dev/sr0") (some "rom") none
    (some 737148928) none none []

/-- A RAID-5 array carrying ext4 (type `raid5`). -/
def raid5Node : BNode :=
  .mk (some "md1") (some "md1") (some "/dev/md1") (some "raid5")
    (some "ext4") (some 1099511627776) none none []

/-- A RAID-0 array carrying ext4. -/
def md0Node : BNode :=
  .mk (some "md0") (some "md0") (some "/dev/md0") (some "raid0")
    (some "ext4") (some 1099511627776) none none []

/-- An LVM logical volume carrying ext4. -/
def dm0Node : BNode :=
  .mk (some "dm-0") (some "dm-0") (some "/dev/dm-0") (some "lvm")
    (some "ext4") (some 1099511627776) none none []

/-- A partition holding a LUKS container (`fstype = crypto_LUKS`). -/
def luksNode : BNode :=
  .mk (some "sdb1") (some "sdb1") (some "/dev/sdb1") (some "part")
    (some "crypto_LUKS") (some 1099511627776) none none []

/-- A swap partition. -/
def swapNode : BNode :=
  .mk (some "sda2") (some "sda2") (some "/dev/sda2") (some "part")
    (some "swap") (some 17179869184) none none []

/-- A volume whose filesystem type has no entry in `mount_ro`'s table. -/
def volMinix : Volume :=
  { path := "/dev/sdz1", kname := "sdz1", fstype := "minix",
    size_bytes := 1048576, type := "part", uuid := none, encrypted := false,
    diskno := 0, partno := 1, model := none }

/-- A mount environment where every launched command exits 0. -/
def mountEnvOk : MountEnv := { rcOf := fun _ => 0, hasApfsFuse := true }

/-- An empty filesystem view. -/
def fsEmpty : FS := fun _ => none

/-- `cfgD` with swap denied. -/
def cfgSwap : Config := { cfgD with skip_fstypes := ["swap"] }

/-- `cfgD` with the skip-on-encryption policy disabled. -/
def cfgOff : Config := { cfgD with skip_if_encrypted := false }

/-- The annotated volume `collect_volumes cfgSwap` produces for
`swapNode`. -/
def vSwap : Volume :=
  annotateVolume cfgSwap [] (mkVolume cfgSwap envNone [swapNode] swapNode)

/-- An ext4 partition nested under a whole-disk node. -/
def sda1Node : BNode :=
  .mk (some "sda1") (some "sda1") (some "/dev/sda1") (some "part")
    (some "ext4") (some 1099511627776) none none []

/-- A whole-disk node with no filesystem of its own, carrying `sda1Node`
as a child. -/
def sdaNode : BNode :=
  .mk (some "sda") (some "sda") (some "/dev/sda") (some "disk") none
    (some 2199023255552) none none [sda1Node]

/-- The annotated volume `collect_volumes cfgD` produces for the nested
partition `sda1Node`. -/
def vSda1 : Volume :=
  annotateVolume cfgD [] (mkVolume cfgD envNone [sdaNode] sda1Node)

/-! ## Helper lemmas -/

theorem length_mk (l : List Char) : (String.mk l).length = l.length := rfl

theorem str_append_ne_empty (a b : String) (h : a ≠ "") : a ++ b ≠ "" := by
  obtain ⟨da⟩ := a
  obtain ⟨db⟩ := b
  intro hc
  apply h
  have hdata : da ++ db = [] := congrArg String.data hc
  rcases List.append_eq_nil.mp hdata with ⟨h1, _⟩
  rw [h1]

theorem tmpPath_ne (p : String) : tmpPath p ≠ p := by
  intro h
  have hl := congrArg String.length h
  obtain ⟨d⟩ := p
  have : (String.mk d ++ ".tmp").length = d.length + 4 := by
    have : (String.mk d ++ ".tmp") = String.mk (d ++ ".tmp".data) := rfl
    rw [this, length_mk, List.length_append]
    rfl
  rw [tmpPath, this, length_mk] at hl
  omega

theorem base36Digits_length (k : Nat) : ∀ n, (base36Digits k n).length = k := by
  induction k with
  | zero => intro n; rfl
  | succ k ih => intro n; simp [base36Digits, ih]

theorem skipReasonOf_ne_some_empty (cfg : Config) (exclude : List String)
    (v : Volume) : skipReasonOf cfg exclude v ≠ some "" := by
  intro h
  unfold skipReasonOf at h
  split at h
  · exact absurd (Option.some.inj h) (by decide)
  · split at h
    · exact str_append_ne_empty "skip_fstype:" v.fstype (by decide)
        (Option.some.inj h)
    · split at h
      · exact str_append_ne_empty "unsupported_fstype:" v.fstype (by decide)
          (Option.some.inj h)
      · split at h
        · exact absurd (Option.some.inj h) (by decide)
        · split at h
          · exact str_append_ne_empty
              ("too_small<" ++ toString cfg.min_partition_size_gb) "G"
              (str_append_ne_empty "too_small<" _ (by decide))
              (Option.some.inj h)
          · exact Option.noConfusion h

theorem mkVolume_policy_off (cfg : Config)
    (hoff : cfg.skip_if_encrypted = false) (pk : String → Option String)
    (e1 e2 : String → String → Bool) (tops : List BNode) (n : BNode) :
    mkVolume cfg ⟨pk, e1⟩ tops n = mkVolume cfg ⟨pk, e2⟩ tops n := by
  simp [mkVolume, hoff]

theorem mkVolume_enc_false (cfg : Config)
    (hoff : cfg.skip_if_encrypted = false) (env : DiscoverEnv)
    (tops : List BNode) (n : BNode) :
    (mkVolume cfg env tops n).encrypted = false := by
  simp [mkVolume, hoff]

mutual

theorem walkNode_policy_off (cfg : Config)
    (hoff : cfg.skip_if_encrypted = false) (pk : String → Option String)
    (e1 e2 : String → String → Bool) (tops : List BNode) :
    ∀ n : BNode,
      walkNode cfg ⟨pk, e1⟩ tops n = walkNode cfg ⟨pk, e2⟩ tops n ∧
        ∀ v ∈ walkNode cfg ⟨pk, e1⟩ tops n, v.encrypted = false
  | .mk name kname path ty fstype size uuid model children => by
    have hrec := walkForest_policy_off cfg hoff pk e1 e2 tops children
    constructor
    · simp only [walkNode]
      rw [hrec.1, mkVolume_policy_off cfg hoff pk e1 e2 tops _]
    · intro v hv
      simp only [walkNode] at hv
      split at hv
      · rcases List.mem_append.mp hv with h1 | h2
        · split at h1
          · rcases List.mem_singleton.mp h1 with rfl
            exact mkVolume_enc_false cfg hoff ⟨pk, e1⟩ tops _
          · exact absurd h1 (List.not_mem_nil v)
        · exact hrec.2 v h2
      · exact absurd hv (List.not_mem_nil v)

theorem walkForest_policy_off (cfg : Config)
    (hoff : cfg.skip_if_encrypted = false) (pk : String → Option String)
    (e1 e2 : String → String → Bool) (tops : List BNode) :
    ∀ ns : List BNode,
      walkForest cfg ⟨pk, e1⟩ tops ns = walkForest cfg ⟨pk, e2⟩ tops ns ∧
        ∀ v ∈ walkForest cfg ⟨pk, e1⟩ tops ns, v.encrypted = false
  | [] => by simp [walkForest]
  | n :: rest => by
    have h1 := walkNode_policy_off cfg hoff pk e1 e2 tops n
    have h2 := walkForest_policy_off cfg hoff pk e1 e2 tops rest
    constructor
    · simp only [walkForest]
      rw [h1.1, h2.1]
    · intro v hv
      simp only [walkForest] at hv
      rcases List.mem_append.mp hv with h | h
      · exact h1.2 v h
      · exact h2.2 v h

end

mutual

theorem walkNode_types (cfg : Config) (env : DiscoverEnv)
    (tops : List BNode) :
    ∀ n : BNode, ∀ v ∈ walkNode cfg env tops n,
      v.type ∈ considerTypes ∨ (v.type = "disk" ∧ v.fstype ≠ "")
  | .mk name kname path ty fstype size uuid model children => by
    intro v hv
    simp only [walkNode] at hv
    split at hv
    · rcases List.mem_append.mp hv with h1 | h2
      · split at h1
        next hc =>
          rcases List.mem_singleton.mp h1 with rfl
          cases ty with
          | none => simp [nodeConsumable] at hc
          | some t =>
            simp only [nodeConsumable, decide_eq_true_eq] at hc
            simpa [mkVolume] using hc
        next => exact absurd h1 (List.not_mem_nil v)
      · exact walkForest_types cfg env tops children v h2
    · exact absurd hv (List.not_mem_nil v)

theorem walkForest_types (cfg : Config) (env : DiscoverEnv)
    (tops : List BNode) :
    ∀ ns : List BNode, ∀ v ∈ walkForest cfg env tops ns,
      v.type ∈ considerTypes ∨ (v.type = "disk" ∧ v.fstype ≠ "")
  | [] => by simp [walkForest]
  | n :: rest => by
    intro v hv
    simp only [walkForest] at hv
    rcases List.mem_append.mp hv with h | h
    · exact walkNode_types cfg env tops n v h
    · exact walkForest_types cfg env tops rest v h

end

mutual

theorem walkNode_eq_reached (cfg : Config) (env : DiscoverEnv)
    (tops : List BNode) :
    ∀ n : BNode,
      walkNode cfg env tops n =
        ((reachedNodes n).filter nodeCandidate).map (mkVolume cfg env tops)
  | .mk name kname path ty fstype size uuid model children => by
    have hrec := walkForest_eq_reached cfg env tops children
    simp only [walkNode, reachedNodes, List.filter_cons, nodeCandidate,
      BNode.path, BNode.ty, BNode.fstype]
    by_cases hp : truthyS path = true
    · rw [if_pos hp]
      by_cases hc : nodeConsumable ty (pyLower (fstype.getD "")) = true
      · simp [hp, hc, hrec]
      · simp [hp, hc, hrec]
    · rw [if_neg hp]
      simp [hp]

theorem walkForest_eq_reached (cfg : Config) (env : DiscoverEnv)
    (tops : List BNode) :
    ∀ ns : List BNode,
      walkForest cfg env tops ns =
        ((reachedForest ns).filter nodeCandidate).map (mkVolume cfg env tops)
  | [] => by simp [walkForest, reachedForest]
  | n :: rest => by
    have h1 := walkNode_eq_reached cfg env tops n
    have h2 := walkForest_eq_reached cfg env tops rest
    simp only [walkForest, reachedForest, List.filter_append,
      List.map_append, h1, h2]

end

/-! ## Claim theorems -/

/-- C1: the claim says a non-zero exit from **any** stage of the archive
pipeline makes `make_chunks` fail and suppresses the manifest.  The code
launches the pipeline as one `bash -lc` command without `pipefail`, so it
only sees the last stage's status: here `tar` exits 2 while `split` exits
0, yet `make_chunks` returns success and writes the manifest (recording a
checksum of the truncated stream). -/
theorem make_chunks_midstage_failure_still_writes_manifest :
    make_chunks cfgD
        { findRc := 0, tarRc := 2, compRc := 0, teeRc := 0, splitRc := 0,
          teeShaWritten := true, wholeShaContent := "beef" } false
      = (true, { partsWritten := true, manifestWritten := true,
                 manifest := some { ext := "zst", chunk_size_mb := 4096,
                                    whole_sha256 := some "beef" } }) := by
  decide

/-- C2: for every stage environment (mount failure, archive failure,
transfer failure, success, or an exception raised in any stage),
`process_one`'s event trace contains exactly one `umount` call, it targets
the volume's own mountpoint, it is the final action of the task, and
`umount` itself returns normally in every environment (including a
mountpoint that was never created). -/
theorem process_one_unmounts_exactly_once (env : TaskEnv) (cfg : Config)
    (v : Volume) (token date_str : String) :
    ((process_one env cfg v token date_str).2.filter Ev.isUmount =
      [Ev.umountCall (mountPointOf (volName cfg date_str token v))]) ∧
    ((process_one env cfg v token date_str).2.getLast? =
      some (Ev.umountCall (mountPointOf (volName cfg date_str token v)))) ∧
    ∀ uenv : UmountEnv, ∃ st, umount uenv = Except.ok st := by
  obtain ⟨mr, cr, rr⟩ := env
  refine ⟨?_, ?_, fun uenv => ?_⟩
  · cases mr with
    | error e => simp [process_one, Ev.isUmount]
    | ok mb =>
      cases mb
      · simp [process_one, Ev.isUmount]
      · cases cr with
        | error e => simp [process_one, Ev.isUmount]
        | ok cb =>
          cases cb
          · simp [process_one, Ev.isUmount]
          · cases rr with
            | error e => simp [process_one, Ev.isUmount]
            | ok rb => simp [process_one, Ev.isUmount]
  · cases mr with
    | error e => simp [process_one]
    | ok mb =>
      cases mb
      · simp [process_one]
      · cases cr with
        | error e => simp [process_one]
        | ok cb =>
          cases cb
          · simp [process_one]
          · cases rr with
            | error e => simp [process_one]
            | ok rb => simp [process_one]
  · unfold umount
    split <;> exact ⟨_, rfl⟩

/-- C3 counterexample: the claim says an unsupported filesystem type
leaves no mountpoint directory created.  `mount_ro` runs
`mp.mkdir(parents=True, exist_ok=True)` before examining the filesystem
type, so for a `minix` volume it returns failure with nothing mounted but
with the mountpoint directory created. -/
theorem mount_ro_unsupported_creates_dir_counterexample :
    mount_ro mountEnvOk volMinix "/mnt/docrip/x"
        = (false, { dirCreated := true, mounted := false }) ∧
      volMinix.fstype ∉ supportedFstypes := by
  decide

/-- C3 amended: for every filesystem type absent from the mount-recipe
table, `mount_ro` returns failure and mounts nothing — but the mountpoint
directory has been created (unconditionally, on entry) and is left in
place. -/
theorem mount_ro_unsupported_fails_without_mounting
    (env : MountEnv) (v : Volume) (mp : String)
    (h : v.fstype ∉ supportedFstypes) :
    mount_ro env v mp = (false, { dirCreated := true, mounted := false }) := by
  simp only [supportedFstypes, List.mem_cons, List.not_mem_nil, or_false,
    not_or] at h
  obtain ⟨h1, h2, h3, h4, h5, h6, h7, h8, h9, h10, h11, h12⟩ := h
  simp [mount_ro, h1, h2, h3, h4, h5, h6, h7, h8, h9, h10, h11, h12]

/-- C3 witness: the amended theorem applied to the `minix` volume. -/
theorem mount_ro_unsupported_fails_without_mounting_witness :
    volMinix.fstype ∉ supportedFstypes ∧
      mount_ro mountEnvOk volMinix "/mnt/docrip/y"
        = (false, { dirCreated := true, mounted := false }) :=
  ⟨by decide,
   mount_ro_unsupported_fails_without_mounting mountEnvOk volMinix
     "/mnt/docrip/y" (by decide)⟩

/-- C5: the filter is exactly first-match-wins evaluation of the five
rules in the claimed order (a) boot/avoid, (b) deny-list, (c) allow-list,
(d) encryption policy, (e) size floor; the first matching rule fixes the
recorded reason, and matching no rule leaves the volume eligible
(no reason). -/
theorem filter_rules_first_match_wins (cfg : Config)
    (exclude : List String) (v : Volume) :
    skipReasonOf cfg exclude v = firstMatch (claimRules cfg exclude) v ∧
    (firstMatch (claimRules cfg exclude) v = none ↔
      skipReasonOf cfg exclude v = none) := by
  have h : skipReasonOf cfg exclude v = firstMatch (claimRules cfg exclude) v := by
    by_cases c1 : v.path ∈ exclude ∨ baseName v.path ∈ cfg.avoid_devices <;>
    by_cases c2 : v.fstype ∈ cfg.skip_fstypes <;>
    by_cases c3 : cfg.include_fstypes ≠ [] ∧ v.fstype ∉ cfg.include_fstypes <;>
    by_cases c4 : cfg.skip_if_encrypted ∧ v.encrypted <;>
    by_cases c5 : v.size_bytes < min_bytes cfg <;>
    simp [skipReasonOf, firstMatch, claimRules, c1, c2, c3, c4, c5]
  exact ⟨h, by rw [h]⟩

/-- C6 counterexample: the claim says distinct eligible volumes always get
distinct derived names.  A RAID-0 array and an LVM volume whose parent
disk cannot be resolved both get disk index 0 and partition index 0, so
both are eligible with the same derived name (hence the same mountpoint
and spool subdirectory). -/
theorem volume_name_collision_counterexample :
    (collect_volumes cfgD envNone [] [md0Node, dm0Node]).map
        (fun v => (v.path, v.skip_reason, volName cfgD "20260101" "3la6j" v)) =
      [("/dev/md0", none, "20260101_3la6j_d0_p0"),
       ("/dev/dm-0", none, "20260101_3la6j_d0_p0")] ∧
    ("/dev/md0" : String) ≠ "/dev/dm-0" := by
  decide

/-- C6 amended: the derived name — and with it the mountpoint and the
working/spool subdirectory — is a function of the run date, the run token
and the volume's (disk index, partition index) alone; volumes that agree
on those indices (which distinct volumes can, as the counterexample
shows) receive identical paths, so path distinctness is not guaranteed. -/
theorem volume_name_function_of_indices (cfg : Config)
    (date_str token : String) (v w : Volume)
    (hd : v.diskno = w.diskno) (hp : v.partno = w.partno) :
    volName cfg date_str token v = volName cfg date_str token w ∧
    mountPointOf (volName cfg date_str token v) =
      mountPointOf (volName cfg date_str token w) ∧
    workRoot cfg (volName cfg date_str token v) =
      workRoot cfg (volName cfg date_str token w) := by
  simp [volName, hd, hp]

/-- C6 witness: the amended theorem applied to two volumes differing only
in device path. -/
theorem volume_name_function_of_indices_witness :
    (volMinix.diskno = ({ volMinix with path := "/dev/sdy1" } : Volume).diskno) ∧
    volName cfgD "20260101" "3la6j" volMinix =
      volName cfgD "20260101" "3la6j" { volMinix with path := "/dev/sdy1" } :=
  ⟨rfl,
   (volume_name_function_of_indices cfgD "20260101" "3la6j" volMinix
     { volMinix with path := "/dev/sdy1" } rfl rfl).1⟩

/-- C8: run-token derivation is deterministic — equal date strings and
equal host identities give equal tokens — and the token always has
exactly 5 characters. -/
theorem derive_token_deterministic (d1 h1 d2 h2 : String)
    (hd : d1 = d2) (hh : h1 = h2) :
    derive_token h1 d1 = derive_token h2 d2 ∧
      (derive_token h1 d1).length = 5 := by
  subst hd
  subst hh
  refine ⟨rfl, ?_⟩
  show (String.mk ((base36Digits 6 _).take 5)).length = 5
  rw [length_mk, List.length_take, base36Digits_length]
  rfl

/-- C8 witness: the determinism theorem applied to a concrete date and
host identity. -/
theorem derive_token_deterministic_witness :
    ("20260101" : String) = "20260101" ∧ ("abc" : String) = "abc" ∧
      (derive_token "abc" "20260101" = derive_token "abc" "20260101" ∧
        (derive_token "abc" "20260101").length = 5) :=
  ⟨rfl, rfl, derive_token_deterministic "20260101" "abc" "20260101" "abc" rfl rfl⟩

/-- C4: for every volume produced (and annotated) by `collect_volumes`,
the skip reason is monotone under the later `--only` pass: a reason set by
the filter pass survives unchanged, and a volume whose reason is unset
either stays eligible (it is in the only-set, or no only-set is active) or
acquires exactly the distinct reason `not_in_only`. -/
theorem skip_reason_monotonic (cfg : Config) (env : DiscoverEnv)
    (exclude : List String) (tops : List BNode)
    (only : Option (List String)) (v : Volume)
    (hv : v ∈ collect_volumes cfg env exclude tops) :
    (∀ r, v.skip_reason = some r → (applyOnly only v).skip_reason = some r) ∧
    (v.skip_reason = none →
      (applyOnly only v).skip_reason = none ∨
        (applyOnly only v).skip_reason = some "not_in_only") := by
  obtain ⟨w, hw, rfl⟩ := List.mem_map.mp hv
  constructor
  · intro r hr
    have hrs : skipReasonOf cfg exclude w = some r := hr
    have hne : r ≠ "" := by
      intro h0
      subst h0
      exact skipReasonOf_ne_some_empty cfg exclude w hrs
    cases only with
    | none => exact hr
    | some o =>
      simp only [applyOnly]
      split
      next => exact hr
      next =>
        split
        next => exact hr
        next =>
          have hfield : (annotateVolume cfg exclude w).skip_reason = some r := hr
          simp [pyOrS, hfield, hne]
  · intro hr
    cases only with
    | none => exact Or.inl hr
    | some o =>
      simp only [applyOnly]
      split
      next => exact Or.inl hr
      next =>
        split
        next => exact Or.inl hr
        next =>
          right
          have hfield : (annotateVolume cfg exclude w).skip_reason = none := hr
          simp [pyOrS, hfield]

/-- C4 witness: the monotonicity theorem applied to a swap volume whose
filter reason `skip_fstype:swap` survives an only-set that excludes it. -/
theorem skip_reason_monotonic_witness :
    (vSwap ∈ collect_volumes cfgSwap envNone [] [swapNode]) ∧
      vSwap.skip_reason = some "skip_fstype:swap" ∧
      (applyOnly (some ["/dev/md9"]) vSwap).skip_reason =
        some "skip_fstype:swap" :=
  ⟨by decide, by decide,
   (skip_reason_monotonic cfgSwap envNone [] [swapNode] (some ["/dev/md9"])
     vSwap (by decide)).1 "skip_fstype:swap" (by decide)⟩

/-- C7 counterexample: the claim says a node becomes a volume candidate
exactly when it is a partition, a RAID/LVM/crypt volume, or a whole disk
carrying a filesystem.  A `rom` node with no filesystem is none of those
yet becomes a candidate, and a `raid5` node carrying ext4 is a RAID volume
yet is not considered (only raid0/raid1/raid10 are). -/
theorem consumable_node_types_counterexample :
    (collect_volumes cfgD envNone [] [romNode]).map (fun v => (v.path, v.type))
        = [("/dev/sr0", "rom")] ∧
      claimConsumable romNode = false ∧
      collect_volumes cfgD envNone [] [raid5Node] = [] ∧
      claimConsumable raid5Node = true := by
  decide

/-- C7 amended: a node of the block-device tree yields a `Volume`
candidate exactly when the walk visits it (every ancestor on its path,
and the node itself, has a truthy path) and its type passes the candidacy
test — one of `part`, `lvm`, `raid0`, `raid1`, `raid10`, `crypt`, `rom`,
or `disk` with a non-empty filesystem type: the produced list is
precisely, in walk order, `mkVolume` of the visited nodes passing that
test (completeness and soundness over all nodes, nested ones included);
consequently every produced volume's type satisfies the test. -/
theorem collect_volumes_candidate_types (cfg : Config) (env : DiscoverEnv)
    (exclude : List String) (tops : List BNode) :
    (∀ v ∈ collect_volumes cfg env exclude tops,
        v.type ∈ considerTypes ∨ (v.type = "disk" ∧ v.fstype ≠ "")) ∧
    collect_volumes cfg env exclude tops =
      ((reachedForest tops).filter nodeCandidate).map
        (fun n => annotateVolume cfg exclude (mkVolume cfg env tops n)) := by
  constructor
  · intro v hv
    obtain ⟨w, hw, rfl⟩ := List.mem_map.mp hv
    have hty : (annotateVolume cfg exclude w).type = w.type := rfl
    have hfs : (annotateVolume cfg exclude w).fstype = w.fstype := rfl
    rw [hty, hfs]
    exact walkForest_types cfg env tops tops w hw
  · simp only [collect_volumes, walkForest_eq_reached cfg env tops tops,
      List.map_map]
    rfl

/-- C7 witness: the amended theorem's soundness part applied to the
volume produced for a partition nested under a whole-disk node. -/
theorem collect_volumes_candidate_types_witness :
    (vSda1 ∈ collect_volumes cfgD envNone [] [sdaNode]) ∧
      (vSda1.type ∈ considerTypes ∨
        (vSda1.type = "disk" ∧ vSda1.fstype ≠ "")) :=
  ⟨by decide,
   (collect_volumes_candidate_types cfgD envNone [] [sdaNode]).1 vSda1
     (by decide)⟩

/-- C9: every JSON persist in the core — the per-volume manifest in
`make_chunks`, the run summary, and each optional per-volume result in
`run_plan` (the latter enumerated by `runPlanJsonWrites`) — goes through
`write_json`, whose observable states give a concurrent reader either the
previous value of the destination or the complete new content, never a
partial file; after the rename the destination holds the new content. -/
theorem write_json_atomic (fs : FS) (p content : String) :
    (∀ s ∈ writeJsonStates fs p content, s p = fs p ∨ s p = some content) ∧
    writeJsonFinal fs p content p = some content ∧
    (∀ (cfg : Config) (ts : String) (results : List VolumeResult)
        (serialize : VolumeResult → String) (summaryContent : String),
      ∀ pc ∈ runPlanJsonWrites cfg ts results serialize summaryContent,
        ∀ s ∈ writeJsonStates fs pc.1 pc.2,
          s pc.1 = fs pc.1 ∨ s pc.1 = some pc.2) := by
  have key : ∀ (q c : String) (s : FS),
      s ∈ writeJsonStates fs q c → s q = fs q ∨ s q = some c := by
    intro q c s hs
    have hne : q ≠ tmpPath q := fun h => tmpPath_ne q h.symm
    simp only [writeJsonStates, List.mem_cons, List.mem_append, List.mem_map,
      List.mem_range, List.mem_singleton, List.not_mem_nil, or_false] at hs
    rcases hs with (rfl | ⟨k, hk, rfl⟩) | rfl
    · exact Or.inl rfl
    · exact Or.inl (by simp [hne])
    · exact Or.inr (by simp [hne])
  have hne : p ≠ tmpPath p := fun h => tmpPath_ne p h.symm
  exact ⟨fun s hs => key p content s hs,
         by simp [writeJsonFinal, hne],
         fun cfg ts results serialize sc pc _ s hs => key pc.1 pc.2 s hs⟩

/-- C9 witness: the atomicity theorem applied to the initial state of a
concrete run-summary write. -/
theorem write_json_atomic_witness :
    (fsEmpty ∈ writeJsonStates fsEmpty "/var/log/docrip/run-x.json" "null") ∧
      (fsEmpty "/var/log/docrip/run-x.json" =
          fsEmpty "/var/log/docrip/run-x.json" ∨
        fsEmpty "/var/log/docrip/run-x.json" = some "null") :=
  ⟨by simp [writeJsonStates],
   (write_json_atomic fsEmpty "/var/log/docrip/run-x.json" "null").1 fsEmpty
     (by simp [writeJsonStates])⟩

/-- C10: when the skip-if-encrypted policy is disabled, `collect_volumes`
never consults the encryption heuristic (its result is independent of the
heuristic's answers) and every produced volume carries `encrypted = false`
— even for a `crypto_LUKS` volume, as the witness instantiates. -/
theorem encryption_flag_inert_when_policy_off (cfg : Config)
    (hoff : cfg.skip_if_encrypted = false) (pk : String → Option String)
    (e1 e2 : String → String → Bool) (exclude : List String)
    (tops : List BNode) :
    collect_volumes cfg ⟨pk, e1⟩ exclude tops =
        collect_volumes cfg ⟨pk, e2⟩ exclude tops ∧
      ∀ v ∈ collect_volumes cfg ⟨pk, e1⟩ exclude tops, v.encrypted = false := by
  have h := walkForest_policy_off cfg hoff pk e1 e2 tops tops
  constructor
  · simp only [collect_volumes]
    rw [h.1]
  · intro v hv
    simp only [collect_volumes] at hv
    rcases List.mem_map.mp hv with ⟨w, hw, rfl⟩
    have henc : (annotateVolume cfg exclude w).encrypted = w.encrypted := rfl
    rw [henc]
    exact h.2 w hw

/-- C10 witness: the theorem applied to a LUKS-bearing partition with two
maximally different heuristic oracles. -/
theorem encryption_flag_inert_when_policy_off_witness :
    cfgOff.skip_if_encrypted = false ∧
      (collect_volumes cfgOff ⟨fun _ => none, fun _ _ => true⟩ [] [luksNode] =
          collect_volumes cfgOff ⟨fun _ => none, fun _ _ => false⟩ [] [luksNode] ∧
        ∀ v ∈ collect_volumes cfgOff ⟨fun _ => none, fun _ _ => true⟩ []
            [luksNode], v.encrypted = false) :=
  ⟨rfl,
   encryption_flag_inert_when_policy_off cfgOff rfl (fun _ => none)
     (fun _ _ => true) (fun _ _ => false) [] [luksNode]⟩

end Docrip
